import Mathlib

/-!
Shallow embedding of the pointclick-assignment-agent browser-automation core:
the MV3 background service worker (`src/extension/background.js`) and the DOM
content script (`src/extension/contentScript.js`).  JavaScript values that the
code inspects for truthiness or integrality are modelled explicitly; external
host capabilities (tabs API, WebSocket, DOM) are modelled as oracles recording
the behaviour the code can observe.
-/

namespace PointClick

/-- JavaScript-style value appearing in query results: a string or null
(`getAttribute` yields null when the attribute is absent). -/
inductive JsVal
  | str (s : String)
  | null
deriving DecidableEq, Repr

/-- A JavaScript numeric slot as the code inspects it with `Number.isInteger`:
absent/null, an integer, or some non-integer value (fractional, NaN, string). -/
inductive JsNum
  | null
  | int (n : Int)
  | nonInt
deriving DecidableEq, Repr

/-- Truthiness of an optional JS string: `undefined`/`null` and the empty
string are falsy; a nonempty string is truthy. -/
def truthyStr : Option String → Option String
  | none => none
  | some s => if s = "" then none else some s

/-- JS `v || d` for an optional numeric slot: absent and `0` are falsy
(`contentScript.js` line 70: `args.timeoutMs || 10000`). -/
def jsOrInt : Option Int → Int → Int
  | none, d => d
  | some n, d => if n = 0 then d else n

/-- Whether the character list `sub` is an initial segment of `s`. -/
def charsStartWith : List Char → List Char → Bool
  | [], _ => true
  | _ :: _, [] => false
  | c :: cs, d :: ds => c = d && charsStartWith cs ds

/-- Whether the character list `sub` occurs contiguously inside `s`. -/
def charsContain (sub : List Char) : List Char → Bool
  | [] => charsStartWith sub []
  | c :: rest => charsStartWith sub (c :: rest) || charsContain sub rest

/-- JS `s.includes(sub)`: `sub` occurs as a contiguous substring of `s`. -/
def strIncludes (s sub : String) : Bool := charsContain sub.data s.data

/-- JS `s.trim()`: strip leading and trailing whitespace. -/
def strTrim (s : String) : String :=
  ⟨((s.data.dropWhile Char.isWhitespace).reverse.dropWhile Char.isWhitespace).reverse⟩

/-- JS `l.slice(0, n)`: a negative end index counts from the end of the list,
clamped at 0 (`contentScript.js` line 81: `out.slice(0, limit)`). -/
def jsSliceTo (n : Int) (l : List α) : List α :=
  if n < 0 then l.take ((l.length : Int) + n).toNat else l.take n.toNat

/-- A DOM element as observed by the content script: an identifying tag for
effect tracking, its attributes, its `innerText`, and whether it sits inside a
form (used by the `type` command's submit path). -/
structure Elem where
  eid : Nat
  attrs : List (String × String) := []
  innerText : String := ""
  hasForm : Bool := false
deriving DecidableEq, Repr

/-- Command-envelope `args`, one field per property the two handlers read.
Absent JS fields are `none`/`.null` (JS `undefined`). -/
structure Args where
  url : Option String := none
  active : Option Bool := none
  index : JsNum := .null
  title : Option String := none
  urlMatch : Option String := none
  format : Option String := none
  selector : Option String := none
  timeoutMs : Option Int := none
  all : Bool := false
  attr : Option String := none
  limit : JsNum := .null
  xy : Option (Int × Int) := none
  text : Option String := none
  submit : Bool := false
  -- models the JS field `args.to` (`to` is reserved in Lean)
  scrollTo : Option String := none
deriving DecidableEq, Repr

/-- Payload of a success Result Envelope, one constructor per `data` shape the
two files construct. -/
inductive OutData
  | navData (tabId : Nat) (url : Option String)
  | tabData (tabId : Nat) (title url : Option String)
  | shot (dataUrl : String)
  | openData (tabId : Nat) (url : Option String)
  | pong
  | waitedFor (s : Option String)
  | results (l : List JsVal)
  | clicked (sel : String)
  | clickedXY (x y : Int)
  | typed (n : Nat)
  | scrolled
deriving DecidableEq, Repr

/-- Result Envelope `{ id, ok, data?, error? }` sent back over the socket. -/
structure OutMsg where
  id : Option String
  ok : Bool
  data : Option OutData := none
  error : Option String := none
deriving DecidableEq, Repr

/-- Success Result Envelope `{ id, ok: true, data }`. -/
def okMsg (id : Option String) (d : OutData) : OutMsg :=
  { id := id, ok := true, data := some d }

/-- Failure Result Envelope `{ id, ok: false, error }`. -/
def errMsg (id : Option String) (e : String) : OutMsg :=
  { id := id, ok := false, error := some e }

/-- The two ways `waitForSelector` can settle: resolve with `true`, or reject
with the (only possible) error `waitFor_timeout`. -/
inductive WaitOutcome
  | resolved
  | rejectedTimeout
deriving DecidableEq, Repr

/-- Observable DOM side effects the content script can dispatch, tagged by the
target element's `eid`. -/
inductive DomEffect
  | scrollIntoView (e : Nat)
  | mouseover (e : Nat)
  | click (e : Nat)
  | focus (e : Nat)
  | setValue (e : Nat) (v : String)
  | inputEvent (e : Nat)
  | changeEvent (e : Nat)
  | submitForm (e : Nat)
  | enterKey (e : Nat)
  | scrollElem (e : Nat)
  | scrollTop
  | scrollBottom
deriving DecidableEq, Repr

/-- Page-context oracle: `elemsFor sel` is `document.querySelectorAll(sel)` in
document order (so `querySelector` is its head), `elementFromPoint` resolves
coordinates, and `waitOutcome` is how `waitForSelector` would settle for a
given selector and timeout. -/
structure CsEnv where
  elemsFor : String → List Elem := fun _ => []
  elementFromPoint : Int × Int → Option Elem := fun _ => none
  waitOutcome : Option String → Int → WaitOutcome := fun _ _ => .resolved

/-- `safeClick(el)` (`contentScript.js` lines 36-41): throws
`element_not_found` on a null element, otherwise scrolls into view, dispatches
a synthetic mouseover, then clicks. -/
def safeClick : Option Elem → Except String (List DomEffect)
  | none => .error "element_not_found"
  | some e => .ok [.scrollIntoView e.eid, .mouseover e.eid, .click e.eid]

/-- `typeText(el, text, submit)` (`contentScript.js` lines 43-54): throws
`element_not_found` on a null element; otherwise focuses, sets
`el.value = text ?? ""`, dispatches input and change, and on submit either
submits the owning form or synthesizes an Enter keydown. -/
def typeText (el : Option Elem) (text : Option String) (submit : Bool) :
    Except String (List DomEffect) :=
  match el with
  | none => .error "element_not_found"
  | some e =>
    .ok ([.focus e.eid, .setValue e.eid (text.getD ""), .inputEvent e.eid,
          .changeEvent e.eid] ++
      (if submit then (if e.hasForm then [.submitForm e.eid] else [.enterKey e.eid])
       else []))

/-- Node selection of the `query` handler (`contentScript.js` line 78):
all matches when `all` is truthy, else `[$(selector)].filter(Boolean)`. -/
def queryNodes (env : CsEnv) (args : Args) (sel : String) : List Elem :=
  if args.all then env.elemsFor sel else ((env.elemsFor sel).head?).toList

/-- Value extraction of the `query` handler (`contentScript.js` lines 79-80):
attribute values (null when absent) when `attr` is truthy, else trimmed
`innerText`, in document order. -/
def queryExtract (env : CsEnv) (args : Args) (sel : String) : List JsVal :=
  match truthyStr args.attr with
  | some a =>
    (queryNodes env args sel).map (fun n =>
      match n.attrs.lookup a with
      | some v => JsVal.str v
      | none => JsVal.null)
  | none => (queryNodes env args sel).map (fun n => JsVal.str (strTrim n.innerText))

/-- The content script's `adapter:cmd` dispatcher (`contentScript.js` lines
63-129): returns the Result Envelope passed to `sendResponse` together with
the DOM side effects dispatched.  Every thrown error is caught by the
handler's own try/catch and becomes `{ id, ok:false, error }`. -/
def csHandle (env : CsEnv) (id : Option String) (cmd : String) (args : Args) :
    OutMsg × List DomEffect :=
  if cmd = "waitFor" then
    match env.waitOutcome args.selector (jsOrInt args.timeoutMs 10000) with
    | .resolved => (okMsg id (.waitedFor args.selector), [])
    | .rejectedTimeout => (errMsg id "waitFor_timeout", [])
  else if cmd = "query" then
    match truthyStr args.selector with
    | none => (errMsg id "missing_selector", [])
    | some sel =>
      let out := queryExtract env args sel
      let out2 := match args.limit with
        | .int k => jsSliceTo k out
        | _ => out
      (okMsg id (.results out2), [])
  else if cmd = "click" then
    match truthyStr args.selector with
    | some s =>
      match safeClick ((env.elemsFor s).head?) with
      | .ok effs => (okMsg id (.clicked s), effs)
      | .error e => (errMsg id e, [])
    | none =>
      match args.xy with
      | some p =>
        match safeClick (env.elementFromPoint p) with
        | .ok effs => (okMsg id (.clickedXY p.1 p.2), effs)
        | .error e => (errMsg id e, [])
      | none => (errMsg id "missing_selector_or_xy", [])
  else if cmd = "type" then
    let el := match args.selector with
      | some s => (env.elemsFor s).head?
      | none => none
    match typeText el args.text args.submit with
    | .ok effs => (okMsg id (.typed (args.text.getD "").length), effs)
    | .error e => (errMsg id e, [])
  else if cmd = "scroll" then
    match truthyStr args.selector with
    | some s =>
      match (env.elemsFor s).head? with
      | none => (errMsg id "element_not_found", [])
      | some el => (okMsg id .scrolled, [.scrollElem el.eid])
    | none =>
      if args.scrollTo = some "top" then (okMsg id .scrolled, [.scrollTop])
      else if args.scrollTo = some "bottom" then (okMsg id .scrolled, [.scrollBottom])
      else (okMsg id .scrolled, [])
  else (errMsg id "unknown_command", [])

/-- A browser tab as the background worker sees it (`chrome.tabs` objects):
`title` and `url` may be absent. -/
structure Tab where
  id : Nat
  title : Option String := none
  url : Option String := none
deriving DecidableEq, Repr

/-- Inbound Command Envelope `{ id, cmd, args = {} }`
(`background.js` line 100). -/
structure CmdMsg where
  id : Option String := none
  cmd : String
  args : Args := {}
deriving DecidableEq, Repr

/-- Background session state: the tracked active tab id
(`background.js` line 9). -/
structure BgState where
  activeTabId : Option Nat := none
deriving DecidableEq, Repr

/-- Side effects of the background worker recorded for observation:
`ensuredCS` marks a run of `ensureContentScript`, `sendAttempt` marks one
`chrome.tabs.sendMessage` attempt of the command payload. -/
inductive BgEffect
  | ensuredCS (tabId : Nat)
  | sendAttempt (tabId : Nat)
deriving DecidableEq, Repr

/-- Host/browser oracle for one command handling: what each `chrome.*` call
the background worker performs would return.  `sendCS i` is the outcome of the
i-th `chrome.tabs.sendMessage` attempt carrying the command payload (`.ok
none` models a resolution with `undefined`, `.error` a rejection whose message
is the string).  `visibleTab` is the active tab of the currently focused
window and `tabImage t` the image a viewport capture of tab `t` would yield:
`chrome.tabs.captureVisibleTab(windowId?, opts)` is the host capability that
captures the active tab of the given (default: current) window. -/
structure BgEnv where
  queryActiveTab : Option Tab := none
  createTab : Option String → Option Bool → Except String Tab :=
    fun _ _ => .error "create_failed"
  updateTabUrl : Nat → Option String → Except String Unit := fun _ _ => .ok ()
  activateTab : Nat → Except String Unit := fun _ => .ok ()
  waitComplete : Nat → Int → Except String Unit := fun _ _ => .ok ()
  sendCS : Nat → Except String (Option OutMsg) :=
    fun _ => .error "Could not establish connection. Receiving end does not exist."
  allTabs : List Tab := []
  visibleTab : Nat := 0
  tabImage : Nat → String := fun _ => ""
  captureFails : Option String := none

/-- The DOM-class command vocabulary routed to the content script
(`background.js` line 8). -/
def actionTypes : List String :=
  ["waitFor", "query", "click", "type", "scroll", "switchTab"]

/-- Retry check of `sendToContentWithRetry` (`background.js` line 62): the
failure message indicates an absent receiver. -/
def isNoReceiver (e : String) : Bool := strIncludes e "Receiving end does not exist"

/-- `getOrCreateActiveTab` (`background.js` lines 71-76): take the browser's
active tab in the current window, else create a blank tab; either way record
it as the tracked active tab. -/
def getOrCreateActiveTab (env : BgEnv) (st : BgState) : BgState × Except String Nat :=
  match env.queryActiveTab with
  | some t => ({ activeTabId := some t.id }, .ok t.id)
  | none =>
    match env.createTab (some "about:blank") none with
    | .ok t => ({ activeTabId := some t.id }, .ok t.id)
    | .error e => (st, .error e)

/-- `sendToContentWithRetry` loop body (`background.js` lines 58-69), indexed
by remaining attempts and the absolute attempt number: a success returns the
response; a failure whose message indicates no receiver re-runs
`ensureContentScript` and retries; any other failure propagates; exhausting
the attempts throws `no_receiver_after_retry`. -/
def sendWithRetryAux (env : BgEnv) (tabId : Nat) :
    Nat → Nat → List BgEffect × Except String (Option OutMsg)
  | 0, _ => ([], .error "no_receiver_after_retry")
  | k + 1, i =>
    match env.sendCS i with
    | .ok r => ([.sendAttempt tabId], .ok r)
    | .error e =>
      if isNoReceiver e then
        let rest := sendWithRetryAux env tabId k (i + 1)
        (.sendAttempt tabId :: .ensuredCS tabId :: rest.1, rest.2)
      else ([.sendAttempt tabId], .error e)

/-- `sendToContentWithRetry(tabId, payload, attempts = 2)`
(`background.js` lines 58-69). -/
def sendToContentWithRetry (env : BgEnv) (tabId : Nat) (attempts : Nat) :
    List BgEffect × Except String (Option OutMsg) :=
  sendWithRetryAux env tabId attempts 0

/-- Target search of the `switchTab` branch (`background.js` lines 122-127):
index match first (an integer index within range), then title-contains, then
URL-contains, selecting the first match. -/
def resolveSwitchTarget (tabs : List Tab) (args : Args) : Option Tab :=
  let t1 := match args.index with
    | .int n => if 0 ≤ n then tabs.get? n.toNat else none
    | _ => none
  let t2 := match t1 with
    | some t => some t
    | none =>
      match truthyStr args.title with
      | some pat => tabs.find? (fun t => strIncludes (t.title.getD "") pat)
      | none => none
  match t2 with
  | some t => some t
  | none =>
    match truthyStr args.urlMatch with
    | some pat => tabs.find? (fun t => strIncludes (t.url.getD "") pat)
    | none => none

/-- Modelled host capability: `chrome.tabs.captureVisibleTab(windowId, opts)`
captures the visible viewport of the active tab of `windowId` (default: the
currently focused window, whose active tab is `env.visibleTab`).  The
background worker passes `undefined` for `windowId`
(`background.js` line 139). -/
def captureVisibleTab (env : BgEnv) (_windowId : Option Nat) (_format : String) :
    Except String String :=
  match env.captureFails with
  | some e => .error e
  | none => .ok (env.tabImage env.visibleTab)

/-- Body of `handleControllerCommand` (`background.js` lines 99-165) inside
the try: returns the state after the handled branch and either the list of
Result Envelopes passed to `wsSend`, or the exception escaping to the outer
catch.  State mutations performed before a throw persist. -/
def handleBody (env : BgEnv) (st : BgState) (m : CmdMsg) :
    BgState × Except String (List OutMsg) :=
  if m.cmd = "navigate" then
    match getOrCreateActiveTab env st with
    | (st1, .error e) => (st1, .error e)
    | (st1, .ok tabId) =>
      match env.updateTabUrl tabId m.args.url with
      | .error e => (st1, .error e)
      | .ok _ =>
        match env.waitComplete tabId 20000 with
        | .error e => (st1, .error e)
        | .ok _ => (st1, .ok [okMsg m.id (.navData tabId m.args.url)])
  else if actionTypes.contains m.cmd then
    match (match st.activeTabId with
           | some t => (st, Except.ok t)
           | none => getOrCreateActiveTab env st) with
    | (st1, .error e) => (st1, .error e)
    | (st1, .ok tabId) =>
      match (sendToContentWithRetry env tabId 2).2 with
      | .error e => (st1, .ok [errMsg m.id e])
      | .ok none => (st1, .ok [])
      | .ok (some o) => (st1, .ok [o])
  else if m.cmd = "switchTab" then
    match resolveSwitchTarget env.allTabs m.args with
    | none => (st, .ok [errMsg m.id "tab_not_found"])
    | some tgt =>
      match env.activateTab tgt.id with
      | .error e => (st, .error e)
      | .ok _ => ({ activeTabId := some tgt.id },
                  .ok [okMsg m.id (.tabData tgt.id tgt.title tgt.url)])
  else if m.cmd = "screenshot" then
    match (match st.activeTabId with
           | some t => (st, Except.ok t)
           | none => getOrCreateActiveTab env st) with
    | (st1, .error e) => (st1, .error e)
    | (st1, .ok _) =>
      match captureVisibleTab env none (m.args.format.getD "png") with
      | .ok u => (st1, .ok [okMsg m.id (.shot u)])
      | .error e => (st1, .ok [errMsg m.id e])
  else if m.cmd = "openTab" then
    match truthyStr m.args.url with
    | none => (st, .ok [errMsg m.id "missing_url"])
    | some url =>
      match env.createTab (some url) (some (m.args.active.getD true)) with
      | .ok tab => ({ activeTabId := some tab.id },
                    .ok [okMsg m.id (.openData tab.id tab.url)])
      | .error e => (st, .ok [errMsg m.id e])
  else if m.cmd = "ping" then (st, .ok [okMsg m.id .pong])
  else (st, .ok [errMsg m.id "unknown_command"])

/-- `handleControllerCommand` (`background.js` lines 99-165): the body wrapped
in the outer try/catch, which converts an escaping exception into
`{ id: msg.id, ok: false, error: String(e) }`. -/
def handleControllerCommand (env : BgEnv) (st : BgState) (m : CmdMsg) :
    BgState × List OutMsg :=
  match handleBody env st m with
  | (st1, .ok outs) => (st1, outs)
  | (st1, .error e) => (st1, [errMsg m.id e])

/-- An inbound socket frame as `ws.onmessage` classifies it
(`background.js` lines 27-32): text that fails `JSON.parse`, a parsed but
falsy value (`!msg`), or an object with optional `id` and `cmd` fields. -/
inductive WireMsg
  | invalidJson
  | parsedFalsy
  | obj (id : Option String) (cmd : Option String) (args : Args)
deriving DecidableEq, Repr

/-- Frame classification of `ws.onmessage`: only a parsed object with a
truthy `cmd` field is routed to `handleControllerCommand`. -/
def parseRoute : WireMsg → Option CmdMsg
  | .invalidJson => none
  | .parsedFalsy => none
  | .obj i c a =>
    match truthyStr c with
    | none => none
    | some cmd => some { id := i, cmd := cmd, args := a }

/-- `ws.onmessage` (`background.js` lines 27-32): parse, silently drop
malformed or command-less frames, otherwise handle; returns the new state and
every Result Envelope emitted in response to the frame. -/
def wsOnMessage (env : BgEnv) (st : BgState) (w : WireMsg) : BgState × List OutMsg :=
  match parseRoute w with
  | none => (st, [])
  | some m => handleControllerCommand env st m

/-- The fixed reconnect delay (`background.js` line 7). -/
def RETRY_MS : Int := 1500

/-- Relay connection state (`ws.readyState` as the code distinguishes it). -/
inductive ConnState
  | disconnected
  | connecting
  | connected
deriving DecidableEq, Repr

/-- Frames the relay client sends on its own (the `ws.onopen` handshake,
`background.js` lines 21-25). -/
inductive Frame
  | hello
  | bootPing
deriving DecidableEq, Repr

/-- Relay client state: connection phase, the delay of the pending reconnect
timer if one is scheduled, and the frames sent so far. -/
structure RelayState where
  conn : ConnState
  pendingRetryMs : Option Int := none
  sent : List Frame := []
deriving DecidableEq, Repr

/-- Socket lifecycle events driving `connectWS` and its handlers
(`background.js` lines 16-40).  `timerFired` is the pending reconnect timer
invoking `connectWS`. -/
inductive RelayEvent
  | connectAttempt
  | timerFired
  | opened
  | closed
  | errored
deriving DecidableEq, Repr

/-- One step of the relay lifecycle machine.  `connectWS` is a no-op when
already connecting or connected; `onopen` sends the hello role announcement
then the `boot-1` ping; `onclose` clears any pending timer and schedules a
reconnect after `RETRY_MS`; `onerror` only calls `ws.close()`, whose `closed`
event is delivered separately. -/
def relayStep (s : RelayState) : RelayEvent → RelayState
  | .connectAttempt =>
    if s.conn = .connecting ∨ s.conn = .connected then s
    else { s with conn := .connecting }
  | .timerFired =>
    let s1 := { s with pendingRetryMs := none }
    if s1.conn = .connecting ∨ s1.conn = .connected then s1
    else { s1 with conn := .connecting }
  | .opened => { s with conn := .connected, sent := s.sent ++ [.hello, .bootPing] }
  | .closed => { s with conn := .disconnected, pendingRetryMs := some RETRY_MS }
  | .errored => s

/-- Relay state at process start, before the initial `connectWS()` call. -/
def relayInit : RelayState := { conn := .disconnected }

/-- Relay state after a sequence of lifecycle events from process start. -/
def relayRun (evs : List RelayEvent) : RelayState := evs.foldl relayStep relayInit

/-- One observation delivered to the pending `waitForSelector` promise
(`contentScript.js` lines 9-30): a mutation-observer callback or a 150 ms poll
tick, at `elapsed` ms since the call, with the selector currently matching or
not. -/
inductive WaitEvent
  | mutation (elapsed : Int) (matched : Bool)
  | tick (elapsed : Int) (matched : Bool)
deriving DecidableEq, Repr

/-- Live-resource and settlement state of one `waitForSelector` call. -/
structure WaitState where
  observerOn : Bool
  intervalOn : Bool
  settled : Option WaitOutcome := none
deriving DecidableEq, Repr

/-- Promise settlement: the first resolve/reject wins, later ones are no-ops. -/
def settle (s : Option WaitOutcome) (o : WaitOutcome) : Option WaitOutcome :=
  match s with
  | some x => some x
  | none => some o

/-- One event of `waitForSelector` (`contentScript.js` lines 10-29).  The
mutation-observer callback disconnects the observer and resolves on a match
(it does not touch the poll interval).  The poll tick runs both of its `if`
statements in order: on a match it clears the interval, disconnects, and
resolves; then, if the elapsed time exceeds the timeout, it clears,
disconnects, and rejects with `waitFor_timeout`.  Callbacks of a disconnected
observer or a cleared interval no longer fire. -/
def waitStep (timeoutMs : Int) (s : WaitState) : WaitEvent → WaitState
  | .mutation _ m =>
    if s.observerOn ∧ m then
      { s with observerOn := false, settled := settle s.settled .resolved }
    else s
  | .tick t m =>
    if s.intervalOn then
      let s1 := if m then
          { s with intervalOn := false, observerOn := false,
                   settled := settle s.settled .resolved }
        else s
      if t > timeoutMs then
        { s1 with intervalOn := false, observerOn := false,
                  settled := settle s1.settled .rejectedTimeout }
      else s1
    else s

/-- A full `waitForSelector(selector, timeoutMs)` call
(`contentScript.js` lines 5-31): if the selector is truthy and already
matches, it returns at once without creating the observer or the interval;
otherwise both are created and the events play out. -/
def waitForRun (selTruthy matchesNow : Bool) (timeoutMs : Int)
    (evs : List WaitEvent) : WaitState :=
  if selTruthy ∧ matchesNow then
    { observerOn := false, intervalOn := false, settled := some .resolved }
  else evs.foldl (waitStep timeoutMs) { observerOn := true, intervalOn := true }

/-- A tick event whose elapsed time exceeds the given timeout: the only kind
of event able to reject a `waitForSelector` promise. -/
def tickPastTimeout (timeoutMs : Int) : WaitEvent → Bool
  | .tick t _ => t > timeoutMs
  | .mutation _ _ => false

/-! Concrete scenarios used by the closed theorems and witnesses below. -/

/-- Page context for the switchTab scenario (the content script's DOM does not
matter there). -/
def csenvSwitch : CsEnv := {}

/-- Arguments of the switchTab scenario: a title that matches an open tab and
an out-of-range index, the exact situation of the spec's testable property. -/
def argsSwitch : Args := { title := some "Gmail", index := .int 5 }

/-- Browser oracle for the switchTab scenario: two open tabs, the second,
titled like a Gmail inbox, matching on title; tab messaging is served by the
actual content-script handler `csHandle`. -/
def envSwitch : BgEnv :=
  { allTabs := [{ id := 0, title := some "Start" },
                { id := 1, title := some "Gmail - Inbox",
                  url := some "https://mail.google.com" }],
    sendCS := fun _ => .ok (some (csHandle csenvSwitch (some "c1") "switchTab" argsSwitch).1) }

/-- Page with three elements matching the selector "li", with texts a, b, c
in document order. -/
def cenvThreeLis : CsEnv :=
  { elemsFor := fun s =>
      if s = "li" then
        [{ eid := 1, innerText := "a" }, { eid := 2, innerText := "b" },
         { eid := 3, innerText := "c" }]
      else [] }

/-- Query arguments with a negative integer limit. -/
def argsNegLimit : Args := { selector := some "li", all := true, limit := .int (-1) }

/-- Page with five elements matching the selector "li". -/
def cenvFiveLis : CsEnv :=
  { elemsFor := fun s =>
      if s = "li" then
        [{ eid := 1, innerText := "a" }, { eid := 2, innerText := "b" },
         { eid := 3, innerText := "c" }, { eid := 4, innerText := "d" },
         { eid := 5, innerText := "e" }]
      else [] }

/-- Browser oracle for the screenshot scenario: the tracked active tab is tab
1, whose viewport would render IMG1, but the focused window's active tab is
tab 2, whose viewport renders IMG2. -/
def envShot : BgEnv :=
  { visibleTab := 2, tabImage := fun t => if t = 1 then "IMG1" else "IMG2",
    allTabs := [{ id := 1 }, { id := 2 }] }

/-- Browser oracle for the retry scenario: the first send fails with the
browser's no-receiver message, the second succeeds with a pong reply. -/
def envRetry : BgEnv :=
  { sendCS := fun i =>
      if i = 0 then
        .error "Could not establish connection. Receiving end does not exist."
      else .ok (some (okMsg (some "x") .pong)) }

/-- Query arguments matching the spec's testable property: `limit = 2` with
`all` selection. -/
def argsLimit2 : Args := { selector := some "li", all := true, limit := .int 2 }

/-! Theorems. -/

/-- Unfolding of `sendWithRetryAux` with no attempts left. -/
theorem sendAux_zero (env : BgEnv) (tabId i : Nat) :
    sendWithRetryAux env tabId 0 i = ([], .error "no_receiver_after_retry") := rfl

/-- Unfolding of `sendWithRetryAux` with at least one attempt left. -/
theorem sendAux_succ (env : BgEnv) (tabId k i : Nat) :
    sendWithRetryAux env tabId (k + 1) i =
      match env.sendCS i with
      | .ok r => ([.sendAttempt tabId], .ok r)
      | .error e =>
        if isNoReceiver e then
          (.sendAttempt tabId :: .ensuredCS tabId ::
            (sendWithRetryAux env tabId k (i + 1)).1,
           (sendWithRetryAux env tabId k (i + 1)).2)
        else ([.sendAttempt tabId], .error e) := rfl

/-- Full case analysis of `sendToContentWithRetry` with the two attempts the
router passes. -/
theorem sendToContentWithRetry_two (env : BgEnv) (tabId : Nat) :
    sendToContentWithRetry env tabId 2 =
      match env.sendCS 0 with
      | .ok r => ([.sendAttempt tabId], .ok r)
      | .error e =>
        if isNoReceiver e then
          match env.sendCS 1 with
          | .ok r => ([.sendAttempt tabId, .ensuredCS tabId, .sendAttempt tabId], .ok r)
          | .error e2 =>
            if isNoReceiver e2 then
              ([.sendAttempt tabId, .ensuredCS tabId, .sendAttempt tabId,
                .ensuredCS tabId], .error "no_receiver_after_retry")
            else ([.sendAttempt tabId, .ensuredCS tabId, .sendAttempt tabId], .error e2)
        else ([.sendAttempt tabId], .error e) := by
  have e2 := sendAux_succ env tabId 1 0
  have e1 := sendAux_succ env tabId 0 1
  have e0 := sendAux_zero env tabId 2
  show sendWithRetryAux env tabId 2 0 = _
  rw [show (2 : Nat) = 1 + 1 from rfl, e2]
  cases h0 : env.sendCS 0 with
  | ok r => rfl
  | error e =>
    by_cases hn : isNoReceiver e
    · simp only [hn, if_true]
      rw [show (1 : Nat) = 0 + 1 from rfl] at e1 ⊢
      rw [e1]
      cases h1 : env.sendCS 1 with
      | ok r => rfl
      | error ee =>
        by_cases hn2 : isNoReceiver ee
        · simp [hn2, sendAux_zero]
        · simp [hn2]
    · simp [hn]

/-- C1: the claim says an inbound `switchTab` command is handled as a direct
Tab Session Manager operation (index, then title, then URL match; activate;
reply with the tab's details).  The code violates this: `"switchTab"` is
listed in `actionTypes`, and the `actionTypes` branch of
`handleControllerCommand` runs before the dedicated `switchTab` branch, so a
`switchTab` command — here with `title:"Gmail"` matching an open tab and an
out-of-range index — is forwarded to the content script, which has no
`switchTab` handler and replies `unknown_command`; no tab is selected and the
tracked active tab id is unchanged. -/
theorem switchTab_routed_to_content_script_bug :
    "switchTab" ∈ actionTypes ∧
    handleControllerCommand envSwitch { activeTabId := some 0 }
        { id := some "c1", cmd := "switchTab", args := argsSwitch } =
      ({ activeTabId := some 0 }, [errMsg (some "c1") "unknown_command"]) := by
  exact ⟨by decide, rfl⟩

/-- C5: the claim says both the mutation observer and the polling interval
are torn down by the time `waitForSelector` resolves or rejects.  The code
violates this on the observer-match path: when the selector starts matching
via a DOM mutation 10 ms after the call (before the first 150 ms poll tick),
the promise resolves with the observer disconnected but the poll interval
still active. -/
theorem waitFor_observer_path_leaks_interval :
    (waitForRun true false 10000 [.mutation 10 true]).settled = some .resolved ∧
    (waitForRun true false 10000 [.mutation 10 true]).intervalOn = true := by
  exact ⟨rfl, rfl⟩

/-- C9: an inbound socket frame that is not valid JSON, parses to a falsy
value, or lacks a truthy `cmd` field is silently discarded by `ws.onmessage`:
no Result Envelope or protocol-error message is emitted and the session state
is untouched. -/
theorem malformed_frames_silently_dropped :
    ∀ (env : BgEnv) (st : BgState),
      wsOnMessage env st .invalidJson = (st, []) ∧
      wsOnMessage env st .parsedFalsy = (st, []) ∧
      ∀ (i c : Option String) (a : Args), truthyStr c = none →
        wsOnMessage env st (.obj i c a) = (st, []) := by
  intro env st
  refine ⟨rfl, rfl, ?_⟩
  intro i c a hc
  simp [wsOnMessage, parseRoute, hc]

/-- C9 witness: a frame whose `cmd` field is the empty string (falsy) is
dropped with no reply. -/
theorem malformed_frames_witness :
    wsOnMessage {} {} (.obj (some "x") (some "") {}) = ({}, []) := by
  exact (malformed_frames_silently_dropped {} {}).2.2 (some "x") (some "") {} (by decide)

/-- A single `waitForSelector` event can only introduce a rejected settlement
through a poll tick whose elapsed time exceeds the timeout. -/
theorem waitStep_reject (T : Int) (s : WaitState) (ev : WaitEvent)
    (h : (waitStep T s ev).settled = some .rejectedTimeout) :
    s.settled = some .rejectedTimeout ∨ tickPastTimeout T ev = true := by
  obtain ⟨so, siv, sst⟩ := s
  cases ev with
  | mutation t m =>
    left
    cases so <;> cases m <;> rcases sst with _ | x <;>
      simp_all [waitStep, settle]
  | tick t m =>
    by_cases hT : T < t
    · exact .inr (by simp [tickPastTimeout, hT])
    · left
      cases siv <;> cases m <;> rcases sst with _ | x <;>
        simp_all [waitStep, settle, tickPastTimeout, if_neg hT]

/-- Rejection of a `waitForSelector` promise can only be introduced by a poll
tick whose elapsed time exceeds the timeout. -/
theorem waitFold_reject_needs_late_tick (T : Int) :
    ∀ (evs : List WaitEvent) (s : WaitState),
      (evs.foldl (waitStep T) s).settled = some .rejectedTimeout →
      s.settled = some .rejectedTimeout ∨ ∃ ev ∈ evs, tickPastTimeout T ev = true := by
  intro evs
  induction evs with
  | nil => intro s h; exact .inl h
  | cons ev rest ih =>
    intro s h
    rw [List.foldl_cons] at h
    rcases ih (waitStep T s ev) h with h1 | ⟨e, he, ht⟩
    · rcases waitStep_reject T s ev h1 with h2 | h2
      · exact .inl h2
      · exact .inr ⟨ev, by simp, h2⟩
    · exact .inr ⟨e, by simp [he], ht⟩

/-- C10: for a `waitFor` command whose `timeoutMs` is absent or an explicit
0 (falsy), the content script behaves exactly as if `timeoutMs` were 10000 —
the default replaces the supplied value — and a `waitFor_timeout` rejection
under the default timeout requires a poll tick past 10000 ms, so a falsy
timeout can never cause an immediate rejection. -/
theorem waitFor_default_timeout :
    (∀ (env : CsEnv) (id : Option String) (args : Args),
      (args.timeoutMs = none ∨ args.timeoutMs = some 0) →
      csHandle env id "waitFor" args =
        csHandle env id "waitFor" { args with timeoutMs := some 10000 }) ∧
    (∀ (selTruthy matchesNow : Bool) (evs : List WaitEvent),
      (waitForRun selTruthy matchesNow 10000 evs).settled = some .rejectedTimeout →
      ∃ ev ∈ evs, tickPastTimeout 10000 ev = true) := by
  constructor
  · intro env id args h
    rcases h with h | h <;> simp [csHandle, jsOrInt, h]
  · intro selTruthy matchesNow evs h
    unfold waitForRun at h
    split at h
    · simp at h
    · rcases waitFold_reject_needs_late_tick 10000 evs _ h with h1 | h2
      · simp at h1
      · exact h2

/-- C10 witness: with `timeoutMs: 0` the `waitFor` handler behaves as with
`timeoutMs: 10000`, and in a run where the selector never matches the
rejection only happens at a tick past 10000 ms. -/
theorem waitFor_default_timeout_witness :
    csHandle {} (some "w") "waitFor" { selector := some "#a", timeoutMs := some 0 } =
      csHandle {} (some "w") "waitFor" { selector := some "#a", timeoutMs := some 10000 } ∧
    ∃ ev ∈ [WaitEvent.tick 10050 false], tickPastTimeout 10000 ev = true := by
  constructor
  · exact waitFor_default_timeout.1 {} (some "w")
      { selector := some "#a", timeoutMs := some 0 } (Or.inr rfl)
  · exact waitFor_default_timeout.2 true false [WaitEvent.tick 10050 false] (by decide)

/-- C7: a `click` command with neither a truthy selector nor coordinates
fails with `missing_selector_or_xy` and dispatches no DOM side effect; with a
selector that resolves to no element, or coordinates hitting no element, it
fails with `element_not_found`, likewise before any side effect. -/
theorem click_missing_inputs_behavior :
    ∀ (env : CsEnv) (id : Option String) (args : Args),
      (truthyStr args.selector = none → args.xy = none →
        csHandle env id "click" args = (errMsg id "missing_selector_or_xy", [])) ∧
      (∀ s, truthyStr args.selector = some s → (env.elemsFor s).head? = none →
        csHandle env id "click" args = (errMsg id "element_not_found", [])) ∧
      (∀ p, truthyStr args.selector = none → args.xy = some p →
        env.elementFromPoint p = none →
        csHandle env id "click" args = (errMsg id "element_not_found", [])) := by
  intro env id args
  refine ⟨?_, ?_, ?_⟩
  · intro hsel hxy
    simp [csHandle, hsel, hxy]
  · intro s hsel hel
    simp [csHandle, hsel, hel, safeClick]
  · intro p hsel hxy hel
    simp [csHandle, hsel, hxy, hel, safeClick]

/-- C7 witness: a concrete click with no selector and no coordinates fails
with `missing_selector_or_xy` and an empty effect list, and a concrete click
on an unmatched selector fails with `element_not_found`. -/
theorem click_missing_inputs_witness :
    csHandle {} (some "k") "click" {} = (errMsg (some "k") "missing_selector_or_xy", []) ∧
    csHandle cenvThreeLis (some "k2") "click" { selector := some "div" } =
      (errMsg (some "k2") "element_not_found", []) := by
  constructor
  · exact (click_missing_inputs_behavior {} (some "k") {}).1 rfl rfl
  · exact (click_missing_inputs_behavior cenvThreeLis (some "k2")
      { selector := some "div" }).2.1 "div" rfl rfl

/-- C6: `sendToContentWithRetry` with 2 attempts: a first-attempt success is
returned after one send; a first-attempt failure whose reason does not
indicate "no receiver" propagates immediately with no injection and no
retry; a "no receiver" failure re-runs `ensureContentScript` and retries once
more, whose outcome is returned likewise — except that a second "no receiver"
failure yields the terminal `no_receiver_after_retry` error.  At most 2 send
attempts happen in every case. -/
theorem sendWithRetry_behavior :
    ∀ (env : BgEnv) (tabId : Nat),
      (∀ v, env.sendCS 0 = .ok v →
        sendToContentWithRetry env tabId 2 = ([.sendAttempt tabId], .ok v)) ∧
      (∀ e, env.sendCS 0 = .error e → isNoReceiver e = false →
        sendToContentWithRetry env tabId 2 = ([.sendAttempt tabId], .error e)) ∧
      (∀ e, env.sendCS 0 = .error e → isNoReceiver e = true →
        (∀ v, env.sendCS 1 = .ok v →
          sendToContentWithRetry env tabId 2 =
            ([.sendAttempt tabId, .ensuredCS tabId, .sendAttempt tabId], .ok v)) ∧
        (∀ e2, env.sendCS 1 = .error e2 → isNoReceiver e2 = false →
          sendToContentWithRetry env tabId 2 =
            ([.sendAttempt tabId, .ensuredCS tabId, .sendAttempt tabId], .error e2)) ∧
        (∀ e2, env.sendCS 1 = .error e2 → isNoReceiver e2 = true →
          sendToContentWithRetry env tabId 2 =
            ([.sendAttempt tabId, .ensuredCS tabId, .sendAttempt tabId,
              .ensuredCS tabId], .error "no_receiver_after_retry"))) := by
  intro env tabId
  refine ⟨?_, ?_, ?_⟩
  · intro v h; simp [sendToContentWithRetry_two, h]
  · intro e h hn; simp [sendToContentWithRetry_two, h, hn]
  · intro e h hn
    refine ⟨?_, ?_, ?_⟩
    · intro v h2; simp [sendToContentWithRetry_two, h, hn, h2]
    · intro e2 h2 hn2; simp [sendToContentWithRetry_two, h, hn, h2, hn2]
    · intro e2 h2 hn2; simp [sendToContentWithRetry_two, h, hn, h2, hn2]

/-- C6 witness: with a first attempt failing on the browser's no-receiver
message and a second attempt succeeding, the executor is re-ensured and the
second response is returned after exactly two send attempts. -/
theorem sendWithRetry_behavior_witness :
    sendToContentWithRetry envRetry 7 2 =
      ([.sendAttempt 7, .ensuredCS 7, .sendAttempt 7],
       .ok (some (okMsg (some "x") .pong))) := by
  exact ((sendWithRetry_behavior envRetry 7).2.2
    "Could not establish connection. Receiving end does not exist."
    rfl (by decide)).1 (some (okMsg (some "x") .pong)) rfl

/-- C3 counterexample: the claim says a limit that is not a non-negative
integer leaves the result list untruncated (all extracted results).  With
`limit = -1` — an integer, so it passes `Number.isInteger` — on a page with
three matches, the code returns only the first two extracted texts, not all
three. -/
theorem query_negative_limit_counterexample :
    (csHandle cenvThreeLis (some "q1") "query" argsNegLimit).1 =
      okMsg (some "q1") (.results [.str "a", .str "b"]) ∧
    (csHandle cenvThreeLis (some "q1") "query" argsNegLimit).1 ≠
      okMsg (some "q1") (.results [.str "a", .str "b", .str "c"]) := by
  exact ⟨rfl, by decide⟩

/-- C3 amended: a `query` without a truthy selector fails with
`missing_selector`; with a selector, the result is an in-document-order
initial segment of the full extraction, whose length is: for a non-negative
integer limit, the smaller of the limit and the match count; for a negative
integer limit `-k`, the match count minus `min k count` (JS `slice(0, -k)`
drops the last elements); for a null, missing, or non-integer limit, the full
match count (no truncation). -/
theorem query_limit_amended :
    ∀ (env : CsEnv) (id : Option String) (args : Args),
      (truthyStr args.selector = none →
        (csHandle env id "query" args).1 = errMsg id "missing_selector") ∧
      (∀ sel, truthyStr args.selector = some sel →
        ∃ out, (csHandle env id "query" args).1 = okMsg id (.results out) ∧
          (∃ rest, queryExtract env args sel = out ++ rest) ∧
          out.length =
            (match args.limit with
             | .int n =>
               if 0 ≤ n then min n.toNat (queryExtract env args sel).length
               else (queryExtract env args sel).length -
                 min n.natAbs (queryExtract env args sel).length
             | _ => (queryExtract env args sel).length)) := by
  intro env id args
  constructor
  · intro hsel; simp [csHandle, hsel]
  · intro sel hsel
    cases hl : args.limit with
    | int k =>
      refine ⟨jsSliceTo k (queryExtract env args sel), ?_, ?_, ?_⟩
      · simp [csHandle, hsel, hl]
      · unfold jsSliceTo
        split
        · exact ⟨(queryExtract env args sel).drop _, (List.take_append_drop _ _).symm⟩
        · exact ⟨(queryExtract env args sel).drop _, (List.take_append_drop _ _).symm⟩
      · simp only [hl]
        unfold jsSliceTo
        split
        case isTrue hk =>
          rw [List.length_take, if_neg (by omega)]
          omega
        case isFalse hk =>
          rw [List.length_take, if_pos (by omega)]
    | null =>
      exact ⟨queryExtract env args sel, by simp [csHandle, hsel, hl],
        ⟨[], by simp⟩, by simp [hl]⟩
    | nonInt =>
      exact ⟨queryExtract env args sel, by simp [csHandle, hsel, hl],
        ⟨[], by simp⟩, by simp [hl]⟩

/-- C3 witness: `query` with `limit = 2` and `all` on a page with five
matches returns an initial segment of the extraction of the right length —
concretely, exactly the first two texts in document order. -/
theorem query_limit_amended_witness :
    (∃ out, (csHandle cenvFiveLis (some "q5") "query" argsLimit2).1 =
        okMsg (some "q5") (.results out) ∧
      (∃ rest, queryExtract cenvFiveLis argsLimit2 "li" = out ++ rest) ∧
      out.length =
        (match argsLimit2.limit with
         | .int n =>
           if 0 ≤ n then min n.toNat (queryExtract cenvFiveLis argsLimit2 "li").length
           else (queryExtract cenvFiveLis argsLimit2 "li").length -
             min n.natAbs (queryExtract cenvFiveLis argsLimit2 "li").length
         | _ => (queryExtract cenvFiveLis argsLimit2 "li").length)) ∧
    (csHandle cenvFiveLis (some "q5") "query" argsLimit2).1 =
      okMsg (some "q5") (.results [.str "a", .str "b"]) := by
  exact ⟨(query_limit_amended cenvFiveLis (some "q5") argsLimit2).2 "li" rfl, rfl⟩

/-- C4 counterexample: the claim says the captured image is the viewport of
the tab tracked in `activeTabId`.  With `activeTabId = 1` (whose viewport
would render IMG1) while the focused window's active tab is tab 2 (rendering
IMG2), the code replies with IMG2: `captureVisibleTab` is called with an
undefined window id and the computed `tabId` is never passed to it. -/
theorem screenshot_ignores_tracked_tab_counterexample :
    (handleControllerCommand envShot { activeTabId := some 1 }
        { id := some "s1", cmd := "screenshot" }).2 =
      [okMsg (some "s1") (.shot (envShot.tabImage envShot.visibleTab))] ∧
    (handleControllerCommand envShot { activeTabId := some 1 }
        { id := some "s1", cmd := "screenshot" }).2 ≠
      [okMsg (some "s1") (.shot (envShot.tabImage 1))] := by
  exact ⟨rfl, by decide⟩

/-- C4 amended: a `screenshot` command captures via
`captureVisibleTab(undefined, {format})` — the visible viewport of the
focused window's active tab — and replies `{ id, ok: true, data: {dataUrl} }`
on success (or converts the capture failure into an error envelope).  The
tracked `activeTabId` does not influence the reply: any other tracked tab id
yields the same Result Envelope. -/
theorem screenshot_captures_visible_tab_amended :
    ∀ (env : BgEnv) (st : BgState) (m : CmdMsg) (t : Nat),
      m.cmd = "screenshot" → st.activeTabId = some t →
      (handleControllerCommand env st m).2 =
        [match captureVisibleTab env none (m.args.format.getD "png") with
         | .ok u => okMsg m.id (.shot u)
         | .error e => errMsg m.id e] ∧
      ∀ t' : Nat, (handleControllerCommand env { activeTabId := some t' } m).2 =
        (handleControllerCommand env st m).2 := by
  intro env st m t hcmd hst
  have hmem : ("screenshot" ∈ actionTypes) = False := by simp [actionTypes]
  have key : ∀ u : Nat, (handleControllerCommand env { activeTabId := some u } m).2 =
      [match captureVisibleTab env none (m.args.format.getD "png") with
       | .ok v => okMsg m.id (.shot v)
       | .error e => errMsg m.id e] := by
    intro u
    cases hcap : captureVisibleTab env none (m.args.format.getD "png") with
    | ok v => simp [handleControllerCommand, handleBody, hcmd, actionTypes, hmem, hcap]
    | error e => simp [handleControllerCommand, handleBody, hcmd, actionTypes, hmem, hcap]
  obtain ⟨a⟩ := st
  obtain rfl : a = some t := hst
  exact ⟨key t, fun t' => (key t').trans (key t).symm⟩

/-- C4 witness: in the two-tab scenario the screenshot reply equals the
capture outcome of the visible tab of the current window. -/
theorem screenshot_captures_visible_tab_witness :
    (handleControllerCommand envShot { activeTabId := some 1 }
        { id := some "s1", cmd := "screenshot" }).2 =
      [match captureVisibleTab envShot none "png" with
       | .ok u => okMsg (some "s1") (.shot u)
       | .error e => errMsg (some "s1") e] := by
  have h := (screenshot_captures_visible_tab_amended envShot { activeTabId := some 1 }
      { id := some "s1", cmd := "screenshot" } 1 rfl rfl).1
  simpa using h

/-- C8: the reconnect delay constant is 1500 ms; every scheduled reconnect
in every reachable relay state uses exactly that fixed delay (constant, not
exponential backoff); a socket close in the Connected state moves the client
to Disconnected with a reconnect scheduled after `RETRY_MS`; an error event
by itself only forces the close (whose close event then schedules the
reconnect); and every successful open — including every reconnection —
appends the `hello` role announcement followed by the `boot-1` ping to the
sent frames. -/
theorem relay_reconnect_and_hello :
    RETRY_MS = 1500 ∧
    (∀ evs, (relayRun evs).pendingRetryMs = none ∨
      (relayRun evs).pendingRetryMs = some RETRY_MS) ∧
    (∀ s : RelayState, s.conn = .connected →
      (relayStep s .closed).conn = .disconnected ∧
      (relayStep s .closed).pendingRetryMs = some RETRY_MS ∧
      relayStep s .errored = s ∧
      (relayStep (relayStep s .errored) .closed).pendingRetryMs = some RETRY_MS) ∧
    (∀ evs, (relayRun (evs ++ [.opened])).sent =
      (relayRun evs).sent ++ [.hello, .bootPing]) := by
  refine ⟨rfl, ?_, fun s _ => ⟨rfl, rfl, rfl, rfl⟩, ?_⟩
  · have key : ∀ (evs : List RelayEvent) (s : RelayState),
        (s.pendingRetryMs = none ∨ s.pendingRetryMs = some RETRY_MS) →
        ((evs.foldl relayStep s).pendingRetryMs = none ∨
         (evs.foldl relayStep s).pendingRetryMs = some RETRY_MS) := by
      intro evs
      induction evs with
      | nil => exact fun s h => h
      | cons ev rest ih =>
        intro s h
        rw [List.foldl_cons]
        apply ih
        cases ev with
        | connectAttempt =>
          simp only [relayStep]
          split
          · exact h
          · simpa using h
        | timerFired =>
          simp only [relayStep]
          split <;> simp
        | opened => simpa [relayStep] using h
        | closed => simp [relayStep]
        | errored => simpa [relayStep] using h
    exact fun evs => key evs relayInit (.inl rfl)
  · intro evs
    show (List.foldl relayStep relayInit (evs ++ [.opened])).sent = _
    rw [List.foldl_append]
    simp [relayStep, relayRun]

/-- C8 witness: after a connect and open, the handshake frames were sent; a
close in that connected state schedules the 1500 ms reconnect. -/
theorem relay_reconnect_and_hello_witness :
    (relayRun [.connectAttempt, .opened]).sent = [.hello, .bootPing] ∧
    (relayStep (relayRun [.connectAttempt, .opened]) .closed).pendingRetryMs =
      some RETRY_MS := by
  constructor
  · exact relay_reconnect_and_hello.2.2.2 [RelayEvent.connectAttempt]
  · exact (relay_reconnect_and_hello.2.2.1
      (relayRun [RelayEvent.connectAttempt, RelayEvent.opened]) rfl).2.1

/-- Any successful outcome of the retry loop is the outcome of one of the
underlying send attempts. -/
theorem sendRetry_ok_mem (env : BgEnv) (tabId : Nat) (r : Option OutMsg)
    (h : (sendToContentWithRetry env tabId 2).2 = .ok r) :
    ∃ j, env.sendCS j = .ok r := by
  rw [sendToContentWithRetry_two] at h
  cases h0 : env.sendCS 0 with
  | ok v => rw [h0] at h; simp at h; exact ⟨0, by rw [h0, h]⟩
  | error e =>
    rw [h0] at h
    by_cases hn : isNoReceiver e
    · simp only [hn, if_true] at h
      cases h1 : env.sendCS 1 with
      | ok v => rw [h1] at h; simp at h; exact ⟨1, by rw [h1, h]⟩
      | error e2 =>
        rw [h1] at h
        by_cases hn2 : isNoReceiver e2 <;> simp [hn2] at h
    · simp [hn] at h

/-- C2: for every Command Envelope the router handles — provided the content
script replies like the real one does, echoing the command id and never
resolving with `undefined` — exactly one Result Envelope is produced, its id
equals the command's id, and any exception escaping the handler body is
caught and converted into `{ id, ok: false, error: message }` rather than
dropped or propagated. -/
theorem router_exactly_one_reply :
    ∀ (env : BgEnv) (st : BgState) (m : CmdMsg),
      (∀ i o, env.sendCS i = .ok (some o) → o.id = m.id) →
      (∀ i, env.sendCS i ≠ .ok none) →
      ((handleControllerCommand env st m).2.length = 1 ∧
       (∀ o ∈ (handleControllerCommand env st m).2, o.id = m.id) ∧
       (∀ e, (handleBody env st m).2 = .error e →
         (handleControllerCommand env st m).2 = [errMsg m.id e])) := by
  intro env st m hcs hns
  have hshape : ∀ st1 outs, handleBody env st m = (st1, .ok outs) →
      ∃ o, outs = [o] ∧ o.id = m.id := by
    intro st1 outs h
    unfold handleBody at h
    repeat' split at h
    all_goals simp_all [okMsg, errMsg]
    all_goals try exact ⟨_, h.2.symm, rfl⟩
    · rename_i heqA heqB
      obtain ⟨j, hj⟩ := sendRetry_ok_mem env _ none heqB
      exact absurd hj (hns j)
    · rename_i heqA heqB
      obtain ⟨j, hj⟩ := sendRetry_ok_mem env _ _ heqB
      exact ⟨_, h.2.symm, hcs j _ hj⟩
  rcases hb : handleBody env st m with ⟨st1, r⟩
  have hcc : handleControllerCommand env st m =
      (match (st1, r) with
       | (s, Except.ok outs) => (s, outs)
       | (s, Except.error e) => (s, [errMsg m.id e])) := by
    unfold handleControllerCommand
    rw [hb]
  cases r with
  | ok outs =>
    obtain ⟨o, ho, hid⟩ := hshape st1 outs hb
    subst ho
    have h2 : (handleControllerCommand env st m).2 = [o] := by rw [hcc]
    refine ⟨by rw [h2]; rfl, ?_, ?_⟩
    · intro o2 ho2
      rw [h2] at ho2
      simp at ho2
      subst ho2
      exact hid
    · intro e he
      simp at he
  | error e =>
    have h2 : (handleControllerCommand env st m).2 = [errMsg m.id e] := by rw [hcc]
    refine ⟨by rw [h2]; rfl, ?_, ?_⟩
    · intro o2 ho2
      rw [h2] at ho2
      simp at ho2
      subst ho2
      rfl
    · intro e2 he2
      have he3 : e = e2 := by simpa using he2
      rw [h2, he3]

/-- C2 witness: a concrete `ping` command gets exactly one reply carrying its
id — concretely the pong envelope. -/
theorem router_exactly_one_reply_witness :
    ((handleControllerCommand {} {} { id := some "w2", cmd := "ping" }).2.length = 1 ∧
     (∀ o ∈ (handleControllerCommand {} {} { id := some "w2", cmd := "ping" }).2,
       o.id = some "w2") ∧
     (∀ e, (handleBody {} {} { id := some "w2", cmd := "ping" }).2 = .error e →
       (handleControllerCommand {} {} { id := some "w2", cmd := "ping" }).2 =
         [errMsg (some "w2") e])) ∧
    (handleControllerCommand {} {} { id := some "w2", cmd := "ping" }).2 =
      [okMsg (some "w2") .pong] := by
  refine ⟨router_exactly_one_reply {} {} { id := some "w2", cmd := "ping" }
    (fun i o h => Except.noConfusion h) (fun i h => Except.noConfusion h), rfl⟩

end PointClick
